import Mathlib

/-!
Verification of the job-orchestration core of the whisper-server repository.

The Python sources are shallowly embedded below:
* `tasks.py` — the Celery tasks `process_audio_async`, `process_batch_audio`,
  `get_job_status`, and the pure scoring helper `calculate_text_similarity`;
* `app/queue_endpoints.py` — the FastAPI endpoints `submit_audio_job`,
  `submit_batch_job`, `get_job_status_endpoint`, `get_batch_status`;
* the semantics of the external libraries those functions call
  (Celery `AsyncResult` over the Redis result store, Python `difflib`,
  Python `round`, `str.split`, `str.strip`, `str.lower`).

Numeric values that are Python floats in the source are idealised as exact
rationals (`ℚ`); machine strings are Lean `String`/`List Char`.
-/

namespace WhisperServer

/-- Celery task states as used by this code base.  `PENDING, PROGRESS, SUCCESS,
FAILURE, REVOKED` (`STARTED` is never observed by these endpoints and the
custom `PROGRESS` state is set by `update_state`). -/
inductive CeleryState where
  | PENDING
  | PROGRESS
  | SUCCESS
  | FAILURE
  | REVOKED
deriving DecidableEq

/-- Celery `AsyncResult.ready()`: the state is one of Celery's
`READY_STATES = {SUCCESS, FAILURE, REVOKED}`. -/
def isReadyState : CeleryState → Bool
  | .SUCCESS => true
  | .FAILURE => true
  | .REVOKED => true
  | _ => false

/-! ## Python string primitives used by the pipeline -/

/-- Model of `len(s.split())` for Python `str.split()` with no argument: the number of
maximal whitespace-free runs.  The Boolean argument tracks whether the scan is
currently inside a word. -/
def wordCountAux : List Char → Bool → Nat
  | [], _ => 0
  | c :: rest, inWord =>
    if c.isWhitespace then wordCountAux rest false
    else (if inWord then 0 else 1) + wordCountAux rest true

/-- Count of `len(s.split())` in Python. -/
def pyWordCount (s : String) : Nat := wordCountAux s.data false

/-- Python `s.lstrip()` on a character list. -/
def lstripL (l : List Char) : List Char := l.dropWhile Char.isWhitespace

/-- Python `s.rstrip()` on a character list. -/
def rstripL (l : List Char) : List Char := (l.reverse.dropWhile Char.isWhitespace).reverse

/-- Python `s.strip()` on a character list. -/
def pyStrip (l : List Char) : List Char := rstripL (lstripL l)

/-- Python `s.strip()` at `String` level. -/
def pyStripString (s : String) : String := ⟨pyStrip s.data⟩

/-- Python `s.lower()` on the characters of a string (ASCII case folding,
which is what every string reaching this code uses). -/
def lowerData (s : String) : List Char := s.data.map Char.toLower

/-- Python `s.startswith(pre)`. -/
def pyStartsWith (s pre : String) : Bool := pre.data.isPrefixOf s.data

/-! ## Python `round` (banker's rounding, half-to-even) idealised on `ℚ` -/

/-- Python `round(x)` on an exact rational: round half to even. -/
def pyRoundInt (q : ℚ) : ℤ :=
  if Int.fract q = 1 / 2 then (if Even ⌊q⌋ then ⌊q⌋ else ⌊q⌋ + 1) else round q

/-- Python `round(x, 1)` on an exact rational. -/
def pyRound1 (q : ℚ) : ℚ := (pyRoundInt (q * 10) : ℚ) / 10

/-! ## Segment analysis loop of `process_audio_async` (tasks.py lines 92–116)
and of `transcribe_audio` (main.py lines 138–162; the two loops are
textually identical). -/

/-- One raw segment as returned by the inference engine
(`result["segments"]` entries: `start`, `end`, `text`, `avg_logprob`).
`stop` embeds the Python key `"end"` (a Lean keyword). -/
structure RawSegment where
  start : ℚ
  stop : ℚ
  text : String
  avg_logprob : ℚ
deriving DecidableEq

/-- A processed segment (`segment_data` in the loop): text is stripped,
`confidence` is the raw `avg_logprob`. -/
structure Segment where
  start : ℚ
  stop : ℚ
  text : String
  confidence : ℚ
deriving DecidableEq

/-- The loop accumulator: `segments`, `total_words`, `total_duration`,
`pause_count`. -/
structure LoopState where
  segments : List Segment
  totalWords : Nat
  totalDuration : ℚ
  pauseCount : Nat
deriving DecidableEq

/-- One iteration of the `for segment in result.get("segments", [])` loop.
`segments[-2]` after the append is the last element of the previous list,
hence the `getLast?`. -/
def segStep (st : LoopState) (s : RawSegment) : LoopState :=
  let segData : Segment :=
    { start := s.start, stop := s.stop, text := pyStripString s.text,
      confidence := s.avg_logprob }
  let segments := st.segments ++ [segData]
  let pauses :=
    if 1 < segments.length then
      match st.segments.getLast? with
      | some prev => if s.start - prev.stop > 1 / 2 then st.pauseCount + 1 else st.pauseCount
      | none => st.pauseCount
    else st.pauseCount
  { segments := segments,
    totalWords := st.totalWords + pyWordCount s.text,
    totalDuration := max st.totalDuration s.stop,
    pauseCount := pauses }

/-- The whole segment loop, started from the zero-initialised accumulator. -/
def analyzeSegments (segs : List RawSegment) : LoopState :=
  segs.foldl segStep { segments := [], totalWords := 0, totalDuration := 0, pauseCount := 0 }

/-! ## Reading metrics (tasks.py lines 118–125, main.py lines 164–171) -/

/-- Values `words_per_minute`, `wpm_score`, `pause_penalty`, `fluency_score` exactly
as computed by the source (Python floats idealised as `ℚ`; `0.7`, `0.3` are
the decimal literals of the source).  Returns `(words_per_minute,
fluency_score)` before the final `round(…, 1)`. -/
def readingMetrics (totalWords : Nat) (totalDuration : ℚ) (pauseCount : Nat)
    (expectedWpm : ℚ) : ℚ × ℚ :=
  let wpm : ℚ := if totalDuration > 0 then (totalWords : ℚ) / totalDuration * 60 else 0
  let wpmScore : ℚ := if expectedWpm > 0 then min (wpm / expectedWpm) 1 else 0
  let pausePenalty : ℚ :=
    if 0 < totalWords then max 0 (1 - ((pauseCount : ℚ) / (totalWords : ℚ) * 10)) else 0
  (wpm, (wpmScore * (7 / 10) + pausePenalty * (3 / 10)) * 100)

/-! ## `difflib.SequenceMatcher` (Python standard library) over `List Char`

`calculate_text_similarity` (tasks.py lines 308–320 and the identical copy in
main.py lines 231–246) builds `SequenceMatcher(None, transcribed, expected)`
and returns `round(matcher.ratio() * 100, 1)`.  The matcher is embedded
faithfully below: the automatic-junk heuristic on the second sequence, the
longest-match dynamic program of `find_longest_match` (ties resolved towards
the earliest end position in `a`, then in `b`, exactly as the ascending scan
with a strict improvement test does), its four junk/non-junk extension loops,
and the recursive block decomposition whose total match count feeds
`ratio = 2*M/T`. -/

/-- The `autojunk` heuristic of `SequenceMatcher.__chain_b`: when `len(b) >=
200`, an element is junk ("popular") iff it occurs more than `len(b) // 100 +
1` times in `b`. -/
def difflibBJunk (b : List Char) : Char → Bool :=
  if 200 ≤ b.length then (fun c => decide (b.length / 100 + 1 < b.count c))
  else (fun _ => false)

/-- Length of the common suffix of two reversed slices in which every `b`-side
character is non-junk: this is the `j2len` value of the dynamic program for
the pair of end positions whose reversed prefixes are given. -/
def commonRunRev (bjunk : Char → Bool) : List Char → List Char → Nat
  | x :: xs, y :: ys =>
    if x = y ∧ ¬ bjunk y then commonRunRev bjunk xs ys + 1 else 0
  | _, _ => 0

/-- The run of the dynamic program ending at positions `i` of `a` and `j` of
`b` (inclusive). -/
def runEndingAt (bjunk : Char → Bool) (a b : List Char) (i j : Nat) : Nat :=
  commonRunRev bjunk (a.take (i + 1)).reverse (b.take (j + 1)).reverse

/-- The `j2len` scan of `find_longest_match`: ascending `i`, then ascending
`j`, keeping the first strictly larger run.  Returns `(besti, bestj,
bestsize)`. -/
def flmPhase1 (bjunk : Char → Bool) (a b : List Char) : Nat × Nat × Nat :=
  (List.range a.length).foldl
    (fun best i =>
      (List.range b.length).foldl
        (fun best j =>
          let k := runEndingAt bjunk a b i j
          if best.2.2 < k then (i + 1 - k, j + 1 - k, k) else best)
        best)
    (0, 0, 0)

/-- One of the two leftward `while` extension loops of `find_longest_match`
(`p` is `not isbjunk` for the first loop and `isbjunk` for the third). -/
def extendLeft (p : Char → Bool) (a b : List Char) : Nat → Nat → Nat → Nat × Nat × Nat
  | i + 1, j + 1, k =>
    if a.getD i ' ' = b.getD j ' ' ∧ p (b.getD j ' ') then
      extendLeft p a b i j (k + 1)
    else (i + 1, j + 1, k)
  | i, j, k => (i, j, k)

/-- One of the two rightward `while` extension loops of `find_longest_match`;
`fuel` bounds the iteration count (`a.length` always suffices since each step
needs `i + k < a.length`). -/
def extendRight (p : Char → Bool) (a b : List Char) (i j : Nat) : Nat → Nat → Nat
  | k, fuel + 1 =>
    if i + k < a.length ∧ j + k < b.length ∧
        a.getD (i + k) ' ' = b.getD (j + k) ' ' ∧ p (b.getD (j + k) ' ') then
      extendRight p a b i j (k + 1) fuel
    else k
  | k, 0 => k

/-- Model of `SequenceMatcher.find_longest_match` on whole (sliced) sequences. -/
def findLongestMatch (bjunk : Char → Bool) (a b : List Char) : Nat × Nat × Nat :=
  let m1 := flmPhase1 bjunk a b
  let m2 := extendLeft (fun c => ! bjunk c) a b m1.1 m1.2.1 m1.2.2
  let k3 := extendRight (fun c => ! bjunk c) a b m2.1 m2.2.1 m2.2.2 a.length
  let m4 := extendLeft bjunk a b m2.1 m2.2.1 k3
  let k5 := extendRight bjunk a b m4.1 m4.2.1 m4.2.2 a.length
  (m4.1, m4.2.1, k5)

/-- Total size of the matching blocks (`sum(size for _, _, size in
get_matching_blocks())`): recursive decomposition around the longest match.
The recursion of `get_matching_blocks` strictly shrinks the two slices, so a
fuel of `a.length + b.length + 1` always suffices. -/
def matchingTotalAux (bjunk : Char → Bool) : Nat → List Char → List Char → Nat
  | 0, _, _ => 0
  | fuel + 1, a, b =>
    let m := findLongestMatch bjunk a b
    if m.2.2 = 0 then 0
    else
      matchingTotalAux bjunk fuel (a.take m.1) (b.take m.2.1) + m.2.2 +
        matchingTotalAux bjunk fuel (a.drop (m.1 + m.2.2)) (b.drop (m.2.1 + m.2.2))

/-- Total number of matched characters of `SequenceMatcher(None, a, b)`. -/
def matchingTotal (bjunk : Char → Bool) (a b : List Char) : Nat :=
  matchingTotalAux bjunk (a.length + b.length + 1) a b

/-- Value of `SequenceMatcher.ratio()`: `2*M/T`, and `1.0` when both sequences are
empty (`_calculate_ratio`). -/
def ratioValue (a b : List Char) : ℚ :=
  if a.length + b.length = 0 then 1
  else 2 * (matchingTotal (difflibBJunk b) a b : ℚ) / ((a.length : ℚ) + (b.length : ℚ))

/-- The normalisation applied by `calculate_text_similarity`:
`s.lower().strip()`. -/
def normChars (s : String) : List Char := pyStrip (lowerData s)

/-- Function `calculate_text_similarity(transcribed, expected)` (tasks.py lines
308–320 / main.py lines 231–246): normalise both inputs, take the matcher
ratio, return `round(similarity * 100, 1)`. -/
def calculate_text_similarity (transcribed expected : String) : ℚ :=
  pyRound1 (ratioValue (normChars transcribed) (normChars expected) * 100)

/-! ## Task declarations (the Celery decorators in tasks.py) -/

/-- The statically declared options of a Celery task decorator. -/
structure TaskDef where
  name : String
  max_retries : Nat
  default_retry_delay : Nat
deriving DecidableEq

/-- Decorator `@celery_app.task(bind=True, max_retries=3, default_retry_delay=60)`
(tasks.py line 41). -/
def processAudioAsyncTask : TaskDef :=
  { name := "process_audio_async", max_retries := 3, default_retry_delay := 60 }

/-- Decorator `@celery_app.task(bind=True, max_retries=2)` (tasks.py line 181);
`default_retry_delay` is Celery's default of 180 seconds. -/
def processBatchAudioTask : TaskDef :=
  { name := "process_batch_audio", max_retries := 2, default_retry_delay := 180 }

/-! ## The failure/retry branch of `process_audio_async`
(tasks.py lines 166–179) -/

/-- What the `except` branch does with a failed attempt: either a
re-enqueue of the same job (`self.retry(countdown=…, exc=exc)`; Celery
re-delivers the task with `request.retries` incremented by one) or the final
`FAILURE` state write followed by re-raising.  `retries_used` records
`self.request.retries` at the moment of the terminal failure. -/
inductive RetryOutcome where
  | retry (countdown : Nat) (nextRetries : Nat)
  | failure (error : String) (job_id : String) (filename : String) (retries_used : Nat)
deriving DecidableEq

/-- tasks.py lines 166–179: `if self.request.retries < self.max_retries:
raise self.retry(countdown=60 * (2 ** self.request.retries), exc=exc)`,
otherwise `self.update_state(state='FAILURE', meta={'error': str(exc),
'job_id': job_id, 'filename': filename})` and re-raise. -/
def handleProcessAudioFailure (retries : Nat) (excMsg jobId filename : String) : RetryOutcome :=
  if retries < processAudioAsyncTask.max_retries then
    .retry (60 * 2 ^ retries) (retries + 1)
  else
    .failure excMsg jobId filename retries

/-! ## The happy path of `process_audio_async` (tasks.py lines 57–156) -/

/-- The processing options bag (`options.get('model', 'base')`,
`options.get('expected_text')`, `options.get('expected_wpm', 100)`). -/
structure Options where
  model : String
  expected_text : Option String
  expected_wpm : ℚ
deriving DecidableEq

/-- What `model.transcribe` returns to the task: text, optional language tag
(`result.get("language", "unknown")`), and the segment list. -/
structure TranscribeResult where
  text : String
  language : Option String
  segments : List RawSegment
deriving DecidableEq

/-- One `self.update_state(state=…, meta={'status': …, 'progress': …})`
call. -/
structure StageUpdate where
  state : CeleryState
  status : String
  progress : Nat
deriving DecidableEq

/-- The `final_result` dictionary of `process_audio_async` (tasks.py lines
138–153), minus the wall-clock fields `processed_at`/`processing_time`. -/
structure FinalResult where
  job_id : String
  filename : String
  text : String
  language : String
  confidence : ℚ
  segments : List Segment
  duration : ℚ
  words_per_minute : ℚ
  pause_count : Nat
  fluency_score : ℚ
  accuracy_score : Option ℚ
  model_used : String
deriving DecidableEq

/-- A successful execution of `process_audio_async` (tasks.py lines 57–156)
given the engine's `TranscribeResult`: returns the ordered list of
`update_state` progress writes and the `final_result` value.  Model load,
temp-file persistence and the inference call itself are the external effects
between the stage boundaries. -/
def processAudioResult (jobId filename : String) (tr : TranscribeResult)
    (opts : Options) : List StageUpdate × FinalResult :=
  let u1 := [({ state := .PROGRESS, status := "Loading model", progress := 10 } : StageUpdate)]
  let u2 := u1 ++ [({ state := .PROGRESS, status := "Saving audio file", progress := 20 } : StageUpdate)]
  let u3 := u2 ++ [({ state := .PROGRESS, status := "Transcribing audio", progress := 30 } : StageUpdate)]
  let u4 := u3 ++ [({ state := .PROGRESS, status := "Analyzing speech", progress := 70 } : StageUpdate)]
  let st := analyzeSegments tr.segments
  let m := readingMetrics st.totalWords st.totalDuration st.pauseCount opts.expected_wpm
  let accuracy : Option ℚ :=
    match opts.expected_text with
    | some e => if e = "" then none else some (calculate_text_similarity tr.text e)
    | none => none
  let u5 := u4 ++ [({ state := .PROGRESS, status := "Finalizing results", progress := 90 } : StageUpdate)]
  let avgConfidence : ℚ :=
    if 0 < st.segments.length then
      (st.segments.map (fun s => s.confidence)).sum / (st.segments.length : ℚ)
    else 0
  (u5,
   { job_id := jobId,
     filename := filename,
     text := pyStripString tr.text,
     language := tr.language.getD "unknown",
     confidence := avgConfidence,
     segments := st.segments,
     duration := st.totalDuration,
     words_per_minute := pyRound1 m.1,
     pause_count := st.pauseCount,
     fluency_score := pyRound1 m.2,
     accuracy_score := accuracy,
     model_used := opts.model })

/-! ## Batch task `process_batch_audio` (tasks.py lines 181–240) -/

/-- One entry of the batch result's `job_ids` list: `{'job_id': …,
'filename': …, 'status': 'PENDING'}`. -/
structure BatchJobEntry where
  job_id : String
  filename : String
  status : String
deriving DecidableEq

/-- The dictionary returned by `process_batch_audio` (tasks.py lines
225–231), minus the wall-clock `submitted_at`. -/
structure BatchResult where
  batch_id : String
  total_files : Nat
  job_ids : List BatchJobEntry
  status : String
deriving DecidableEq

/-- One file of a batch (`{'data': bytes, 'filename': str}`); the raw bytes
are opaque here. -/
structure FileData where
  data : String
  filename : String
deriving DecidableEq

/-- A job enqueued through `process_audio_async.delay(...)`: the created Job
Record runs the `process_audio_async` task definition. -/
structure SpawnedJob where
  task : TaskDef
  filename : String
deriving DecidableEq

/-- The body of `process_batch_audio` (tasks.py lines 196–234): one
`process_audio_async.delay` per file (`idGen` supplies the broker-assigned
job ids), then the `SUBMITTED` batch result.  The second component lists the
individual Job Records created. -/
def processBatchAudio (batchId : String) (files : List FileData) (idGen : Nat → String) :
    BatchResult × List SpawnedJob :=
  let entries := files.enum.map
    (fun p => ({ job_id := idGen p.1, filename := p.2.filename, status := "PENDING" } : BatchJobEntry))
  let spawned := files.map
    (fun f => ({ task := processAudioAsyncTask, filename := f.filename } : SpawnedJob))
  ({ batch_id := batchId, total_files := files.length, job_ids := entries,
     status := "SUBMITTED" }, spawned)

/-! ## The result store and Celery `AsyncResult` semantics -/

/-- The value stored under a task id in the result backend: the task's
`result`/`meta` field. -/
inductive ResultBlob where
  | success (r : FinalResult)
  | failureExc (msg : String)
  | revokedExc (msg : String)
  | progressMeta (status : String) (progress : Nat)
  | batchInfo (b : BatchResult)
deriving DecidableEq

/-- One persisted task record: its state and its result blob. -/
structure JobRecord where
  state : CeleryState
  blob : Option ResultBlob
deriving DecidableEq

/-- The Redis result store: an association of task id to record.  A missing
key is indistinguishable from a never-submitted task. -/
def Store := List (String × JobRecord)

/-- Celery `AsyncResult(id).status`: the stored state, or `PENDING` when the backend
has no record for the id (Celery returns `PENDING` for unknown ids). -/
def asyncResultState (store : Store) (id : String) : CeleryState :=
  ((List.lookup id store).map (fun r => r.state)).getD .PENDING

/-- Celery `AsyncResult(id).result`: the stored blob, or `None`. -/
def asyncResultBlob (store : Store) (id : String) : Option ResultBlob :=
  (List.lookup id store).bind (fun r => r.blob)

/-- Python `str(result.result)` as used on the non-success branches: the
exception message for stored exceptions, `"None"` for a missing blob, and a
placeholder rendering for the structured payloads (never reached by this
code on those branches). -/
def strOfOptBlob : Option ResultBlob → String
  | some (.failureExc m) => m
  | some (.revokedExc m) => m
  | some (.success _) => "dict"
  | some (.progressMeta _ _) => "dict"
  | some (.batchInfo _) => "dict"
  | none => "None"

/-- Python truthiness of `result.result` (`if … and result.result:`): `None`
is falsy, every stored meta/result dictionary of this system is a non-empty
dict, hence truthy. -/
def blobTruthy : Option ResultBlob → Bool
  | none => false
  | some _ => true

/-- A FastAPI `HTTPException(status_code, detail)`. -/
structure HttpError where
  code : Nat
  detail : String
deriving DecidableEq

/-! ## `GET /queue/status/{job_id}` (queue_endpoints.py lines 127–157) -/

/-- The `JobStatusResponse` pydantic model (queue_endpoints.py lines 25–33). -/
structure JobStatusResponse where
  job_id : String
  status : CeleryState
  ready : Bool
  successful : Option Bool
  failed : Option Bool
  result : Option ResultBlob
  progress : Option ResultBlob
  error : Option String
deriving DecidableEq

/-- Endpoint `get_job_status_endpoint` (queue_endpoints.py lines 127–157).  The body
performs only backend reads, so the surrounding `try`/`except` can never
produce its 500; the `Except` result type records that the endpoint has no
other failure channel (in particular no 404). -/
def getJobStatusEndpoint (store : Store) (jobId : String) :
    Except HttpError JobStatusResponse :=
  let st := asyncResultState store jobId
  let blob := asyncResultBlob store jobId
  let ready := isReadyState st
  let base : JobStatusResponse :=
    { job_id := jobId, status := st, ready := ready,
      successful := if ready then some (decide (st = .SUCCESS)) else none,
      failed := if ready then some (decide (st = .FAILURE)) else none,
      result := none, progress := none, error := none }
  if ready then
    if st = .SUCCESS then .ok { base with result := blob }
    else .ok { base with error := some (strOfOptBlob blob) }
  else
    if st = .PROGRESS ∧ blobTruthy blob then .ok { base with progress := blob }
    else .ok base

/-! ## `GET /queue/batch-status/{batch_id}` (queue_endpoints.py lines 159–226) -/

/-- One member entry of the batch view (queue_endpoints.py lines 188–207). -/
structure MemberStatus where
  job_id : String
  filename : String
  status : CeleryState
  ready : Bool
  result : Option ResultBlob
  error : Option String
  progress : Option ResultBlob
deriving DecidableEq

/-- The member loop body of `get_batch_status`. -/
def memberStatusOf (store : Store) (e : BatchJobEntry) : MemberStatus :=
  let st := asyncResultState store e.job_id
  let blob := asyncResultBlob store e.job_id
  let ready := isReadyState st
  let base : MemberStatus :=
    { job_id := e.job_id, filename := e.filename, status := st, ready := ready,
      result := none, error := none, progress := none }
  if ready then
    if st = .SUCCESS then { base with result := blob }
    else { base with error := some (strOfOptBlob blob) }
  else if st = .PROGRESS then { base with progress := blob }
  else base

/-- Python truthiness of `job.get('error')`: a missing key or an empty
string is falsy. -/
def truthyOptStr : Option String → Bool
  | none => false
  | some s => s ≠ ""

/-- The aggregated batch summary dictionary (queue_endpoints.py lines
214–223). -/
structure BatchSummary where
  batch_id : String
  status : String
  total_jobs : Nat
  completed_jobs : Nat
  failed_jobs : Nat
  progress_percentage : ℚ
  jobs : List MemberStatus
  batch_info : BatchResult
deriving DecidableEq

/-- The three response shapes `get_batch_status` can return. -/
inductive BatchView where
  | notReady (batch_id : String) (status : CeleryState)
  | failedBatch (batch_id : String) (error : String)
  | summary (s : BatchSummary)
deriving DecidableEq

/-- Endpoint `get_batch_status` (queue_endpoints.py lines 159–226).  The
`progress_percentage` division `completed_jobs / total_jobs` raises a
`ZeroDivisionError` in Python when the member list is empty; the endpoint's
`except Exception` turns it into `HTTPException(500, "Failed to get batch
status: division by zero")`, modelled by the `.error` branch.  A ready
non-failed batch whose stored blob is not the batch-info dictionary would
likewise die in the `except` with an attribute error; no such record is ever
written by this system. -/
def getBatchStatus (store : Store) (batchId : String) : Except HttpError BatchView :=
  let st := asyncResultState store batchId
  if ¬ isReadyState st then .ok (.notReady batchId st)
  else if st = .FAILURE then
    .ok (.failedBatch batchId (strOfOptBlob (asyncResultBlob store batchId)))
  else
    match asyncResultBlob store batchId with
    | some (.batchInfo info) =>
      let jobs := info.job_ids.map (memberStatusOf store)
      let total := jobs.length
      let completed := (jobs.filter (fun j => j.ready)).length
      let failedJobs := (jobs.filter (fun j => truthyOptStr j.error)).length
      if total = 0 then
        .error { code := 500, detail := "Failed to get batch status: division by zero" }
      else
        .ok (.summary
          { batch_id := batchId,
            status := if completed = total then "COMPLETED" else "IN_PROGRESS",
            total_jobs := total,
            completed_jobs := completed,
            failed_jobs := failedJobs,
            progress_percentage := pyRound1 ((completed : ℚ) / (total : ℚ) * 100),
            jobs := jobs,
            batch_info := info })
    | _ =>
      .error { code := 500, detail := "Failed to get batch status: attribute error" }

/-! ## Submission endpoints (queue_endpoints.py lines 42–125) -/

/-- An uploaded file as seen by the endpoints: original filename, declared
content type, raw bytes (opaque). -/
structure UploadFile where
  filename : String
  content_type : String
  data : String
deriving DecidableEq

/-- The `JobSubmissionResponse` pydantic model. -/
structure JobSubmissionResponse where
  job_id : String
  status : String
  message : String
deriving DecidableEq

/-- Endpoint `submit_audio_job` (queue_endpoints.py lines 42–79): content-type
precheck, then one `process_audio_async.delay`.  On success the returned
pair carries the single Job Record created. -/
def submitAudioJob (file : UploadFile) (jobId : String) :
    Except HttpError (JobSubmissionResponse × SpawnedJob) :=
  if ¬ pyStartsWith file.content_type "audio/" then
    .error { code := 400, detail := "File must be an audio file" }
  else
    .ok ({ job_id := jobId, status := "PENDING",
           message := "Audio processing job submitted successfully for file: " ++ file.filename },
         { task := processAudioAsyncTask, filename := file.filename })

/-- The `BatchJobResponse` pydantic model (minus the wall-clock
`submitted_at`). -/
structure BatchJobResponse where
  batch_id : String
  total_files : Nat
  job_ids : List BatchJobEntry
  status : String
deriving DecidableEq

/-- The `for audio_file in audio_files` read loop of `submit_batch_job`
(queue_endpoints.py lines 96–108): the first member failing the
content-type check raises `HTTPException(400, "File … is not an audio
file")` before any job is enqueued. -/
def readFilesLoop : List UploadFile → Except HttpError (List FileData)
  | [] => .ok []
  | f :: fs =>
    if pyStartsWith f.content_type "audio/" then
      match readFilesLoop fs with
      | .ok rest => .ok ({ data := f.data, filename := f.filename } :: rest)
      | .error e => .error e
    else
      .error { code := 400, detail := "File " ++ f.filename ++ " is not an audio file" }

instance {ε α : Type} [DecidableEq ε] [DecidableEq α] : DecidableEq (Except ε α) := fun x y =>
  match x, y with
  | .ok a, .ok b =>
    if h : a = b then isTrue (by rw [h]) else isFalse (fun hh => h (Except.ok.inj hh))
  | .error a, .error b =>
    if h : a = b then isTrue (by rw [h]) else isFalse (fun hh => h (Except.error.inj hh))
  | .ok _, .error _ => isFalse (fun hh => Except.noConfusion hh)
  | .error _, .ok _ => isFalse (fun hh => Except.noConfusion hh)

/-- What a call to `submit_batch_job` produces: the HTTP response, whether
the batch-coordination task was enqueued, and the individual Job Records
created (via `process_batch_audio` → `process_audio_async.delay`, observed
synchronously through `batch_job.get(timeout=10)`). -/
structure SubmitBatchOutcome where
  response : Except HttpError BatchJobResponse
  batchTask : Option TaskDef
  createdJobs : List SpawnedJob
deriving DecidableEq

/-- Endpoint `submit_batch_job` (queue_endpoints.py lines 81–125).  The over-cap check
sits before the `try` block, so its `HTTPException(400)` propagates; the
content-type `HTTPException(400)` is raised inside the `try` block, caught by
`except Exception as e`, and re-raised as `HTTPException(500, "Failed to
submit batch job: " + str(e))` where `str` of a FastAPI `HTTPException`
renders as `"{status_code}: {detail}"`. -/
def submitBatchJob (files : List UploadFile) (batchId : String) (idGen : Nat → String) :
    SubmitBatchOutcome :=
  if 50 < files.length then
    { response := .error { code := 400, detail := "Batch size limited to 50 files" },
      batchTask := none, createdJobs := [] }
  else
    match readFilesLoop files with
    | .error e =>
      let msg := "Failed to submit batch job: " ++ toString e.code ++ ": " ++ e.detail
      { response := .error { code := 500, detail := msg },
        batchTask := none, createdJobs := [] }
    | .ok fileData =>
      let r := processBatchAudio batchId fileData idGen
      { response := .ok { batch_id := r.1.batch_id, total_files := r.1.total_files,
                          job_ids := r.1.job_ids, status := r.1.status },
        batchTask := some processBatchAudioTask,
        createdJobs := r.2 }

/-! ## Specification-side definitions

These two definitions are written from the specification's wording (not from
the source) and are only used on the right-hand side of refinement
statements comparing the embedded code against the spec. -/

/-- Spec formula: `fluency score = 100 × (0.7 × min(wpm/expected_wpm, 1.0) +
0.3 × max(0, 1 − pauses/words × 10))`. -/
def specFluency (wpm expectedWpm pauses words : ℚ) : ℚ :=
  100 * ((7 / 10) * min (wpm / expectedWpm) 1 + (3 / 10) * max 0 (1 - pauses / words * 10))

/-- Spec description of a pause: the number of adjacent segment pairs whose
inter-segment gap (next segment's start minus previous segment's end)
strictly exceeds 0.5 seconds. -/
def specPauseCount : List RawSegment → Nat
  | s₁ :: s₂ :: rest => (if s₂.start - s₁.stop > 1 / 2 then 1 else 0) + specPauseCount (s₂ :: rest)
  | _ => 0

/-- Helper for the pause-count proof: pauses seen by the loop over a
remaining segment list, given the `end` time of the previously processed
segment (if any). -/

def pausesFrom : Option ℚ → List RawSegment → Nat
  | none, [] => 0
  | some _, [] => 0
  | none, s :: rest => pausesFrom (some s.stop) rest
  | some pe, s :: rest =>
    (if s.start - pe > 1 / 2 then 1 else 0) + pausesFrom (some s.stop) rest

/-! ## Concrete fixtures used by examples, counterexamples and witnesses -/

/-- A 100-word text (`"a a a … a "`). -/
def hundredWordText : String := ⟨(List.replicate 100 ['a', ' ']).flatten⟩

/-- A single 60-second segment containing 100 words. -/
def exampleTranscribe : TranscribeResult :=
  { text := hundredWordText, language := some "en",
    segments := [{ start := 0, stop := 60, text := hundredWordText, avg_logprob := 0 }] }

/-- Default options of the queue endpoints: `model='base'`,
`expected_text=None`, `expected_wpm=100`. -/
def defaultOptions : Options :=
  { model := "base", expected_text := none, expected_wpm := 100 }

/-- The two-segment pause fixture of the spec:
`[{start:0,end:2,text:"a"},{start:3,end:4,text:"b"}]`. -/
def pauseFixture : List RawSegment :=
  [{ start := 0, stop := 2, text := "a", avg_logprob := 0 },
   { start := 3, stop := 4, text := "b", avg_logprob := 0 }]

/-- A store holding exactly one revoked job (the worker stores a
`TaskRevokedError` whose `str` is `"revoked"`). -/
def revokedStore : Store :=
  [("job-revoked", { state := .REVOKED, blob := some (.revokedExc "revoked") })]

/-- A store holding one successful empty batch record. -/
def emptyBatchStore : Store :=
  [("batch-empty",
    { state := .SUCCESS,
      blob := some (.batchInfo
        { batch_id := "batch-empty", total_files := 0, job_ids := [], status := "SUBMITTED" }) })]

/-- A well-formed audio upload. -/
def goodWav : UploadFile :=
  { filename := "a.wav", content_type := "audio/wav", data := "RIFF" }

/-- A non-audio upload. -/
def badTxt : UploadFile :=
  { filename := "b.txt", content_type := "text/plain", data := "hello" }

/-- A deterministic id supply for the spawned jobs. -/
def exampleIdGen : Nat → String := fun n => "job-" ++ toString n

/-! # Theorems -/

/-- C1, counterexample: querying an id absent from the result store does not
fail with `NotFound` — both status reads return an ordinary status view with
state `PENDING`. -/
theorem claim_C1_counterexample :
    getJobStatusEndpoint [] "missing-job"
      = .ok { job_id := "missing-job", status := .PENDING, ready := false,
              successful := none, failed := none, result := none, progress := none,
              error := none }
    ∧ getBatchStatus [] "missing-batch" = .ok (.notReady "missing-batch" .PENDING) :=
  ⟨rfl, rfl⟩

/-- C1, amended: for every job_id (or batch_id) that has no record in the
result store — including an expired one — `get_job_status` (resp.
`get_batch_status`) returns a normal status view with state `PENDING` and
`ready = false` (Celery reports unknown ids as `PENDING`); neither endpoint
has a `NotFound` outcome. -/
theorem claim_C1_amended : ∀ (store : Store) (id : String),
    List.lookup id store = none →
    getJobStatusEndpoint store id
      = .ok { job_id := id, status := .PENDING, ready := false,
              successful := none, failed := none, result := none, progress := none,
              error := none }
    ∧ getBatchStatus store id = .ok (.notReady id .PENDING) := by
  intro store id h
  constructor
  · simp [getJobStatusEndpoint, asyncResultState, asyncResultBlob, h, isReadyState, blobTruthy]
  · simp [getBatchStatus, asyncResultState, asyncResultBlob, h, isReadyState]

/-- C1, witness: the amended statement applied to the empty store. -/
theorem claim_C1_witness :
    List.lookup "gone-job" ([] : Store) = none
    ∧ getJobStatusEndpoint [] "gone-job"
        = .ok { job_id := "gone-job", status := .PENDING, ready := false,
                successful := none, failed := none, result := none, progress := none,
                error := none }
    ∧ getBatchStatus [] "gone-job" = .ok (.notReady "gone-job" .PENDING) :=
  ⟨rfl, (claim_C1_amended [] "gone-job" rfl).1, (claim_C1_amended [] "gone-job" rfl).2⟩

/-- C2, counterexample: a revoked job's status view does carry an error
payload — `successful()` is false for state `REVOKED`, so the endpoint sets
`error = str(result.result)` (the stored `TaskRevokedError`). -/
theorem claim_C2_counterexample :
    getJobStatusEndpoint revokedStore "job-revoked"
      = .ok { job_id := "job-revoked", status := .REVOKED, ready := true,
              successful := some false, failed := some false, result := none,
              progress := none, error := some "revoked" }
    ∧ some "revoked" ≠ (none : Option String) :=
  ⟨rfl, by decide⟩

/-- C2, amended: for every job whose final status is `REVOKED`,
`get_job_status` returns status `REVOKED` with no result payload, with
`successful = false` and `failed = false`, but with an error payload equal to
the stringified stored revocation outcome. -/
theorem claim_C2_amended : ∀ (store : Store) (jid : String) (rec : JobRecord),
    List.lookup jid store = some rec → rec.state = .REVOKED →
    getJobStatusEndpoint store jid
      = .ok { job_id := jid, status := .REVOKED, ready := true,
              successful := some false, failed := some false, result := none,
              progress := none, error := some (strOfOptBlob rec.blob) } := by
  intro store jid rec hl hs
  simp [getJobStatusEndpoint, asyncResultState, asyncResultBlob, hl, hs, isReadyState]

/-- C2, witness: the amended statement applied to a concrete store holding a
revoked job. -/
theorem claim_C2_witness :
    List.lookup "job-revoked" revokedStore
        = some { state := .REVOKED, blob := some (.revokedExc "revoked") }
    ∧ getJobStatusEndpoint revokedStore "job-revoked"
        = .ok { job_id := "job-revoked", status := .REVOKED, ready := true,
                successful := some false, failed := some false, result := none,
                progress := none,
                error := some (strOfOptBlob (some (.revokedExc "revoked"))) } :=
  ⟨rfl, claim_C2_amended revokedStore "job-revoked" _ rfl rfl⟩

/-- C3: evaluation of `submit_batch_job` at the failing input.  A batch
containing a non-audio member is rejected with zero Job Records created, but
the `HTTPException(400)` raised by the content-type precheck is caught by the
endpoint's own `except Exception` and surfaces as a 500 internal error
instead of the intended 400 `InvalidInput`; the over-cap path (51 files)
does surface as 400 with zero Job Records. -/
theorem claim_C3_code_bug :
    (submitBatchJob [goodWav, badTxt] "batch-1" exampleIdGen).response
      = .error { code := 500,
                 detail := "Failed to submit batch job: 400: File b.txt is not an audio file" }
    ∧ (submitBatchJob [goodWav, badTxt] "batch-1" exampleIdGen).createdJobs = []
    ∧ (submitBatchJob [goodWav, badTxt] "batch-1" exampleIdGen).batchTask = none
    ∧ (submitBatchJob (List.replicate 51 goodWav) "batch-2" exampleIdGen).response
        = .error { code := 400, detail := "Batch size limited to 50 files" }
    ∧ (submitBatchJob (List.replicate 51 goodWav) "batch-2" exampleIdGen).createdJobs = []
    ∧ (submitBatchJob (List.replicate 51 goodWav) "batch-2" exampleIdGen).batchTask = none :=
  ⟨rfl, rfl, rfl, rfl, rfl, rfl⟩

/-- C4: in `process_audio_async`, a failing attempt with `retries_used = k`
strictly below the budget re-enqueues the same job with countdown
`60 × 2^k` seconds and the redelivered request carries `retries = k + 1`;
at `k = max_retries` the job is finalized `FAILURE` carrying the captured
cause with `retries_used = max_retries`. -/
theorem claim_C4 :
    (∀ (k : Nat) (excMsg jobId filename : String),
        k < processAudioAsyncTask.max_retries →
        handleProcessAudioFailure k excMsg jobId filename = .retry (60 * 2 ^ k) (k + 1))
    ∧ (∀ (excMsg jobId filename : String),
        handleProcessAudioFailure processAudioAsyncTask.max_retries excMsg jobId filename
          = .failure excMsg jobId filename processAudioAsyncTask.max_retries) := by
  constructor
  · intro k excMsg jobId filename hk
    simp [handleProcessAudioFailure, hk]
  · intro excMsg jobId filename
    simp [handleProcessAudioFailure]

/-- C4, witness: the second failing attempt (`k = 1`) is re-enqueued with a
120-second delay, and the budget bound holds there. -/
theorem claim_C4_witness :
    1 < processAudioAsyncTask.max_retries
    ∧ handleProcessAudioFailure 1 "boom" "job-1" "a.wav" = .retry 120 2 :=
  ⟨by decide, claim_C4.1 1 "boom" "job-1" "a.wav" (by decide)⟩

/-- C5, counterexample: a batch of one file creates a member job whose retry
budget is 3 (it runs `process_audio_async`), not 2 as the claim states. -/
theorem claim_C5_counterexample :
    ((processBatchAudio "batch-1" [{ data := "RIFF", filename := "a.wav" }] exampleIdGen).2.map
        (fun j => j.task.max_retries)) = [3]
    ∧ ([3] : List Nat) ≠ [2] :=
  ⟨rfl, by decide⟩

/-- C5, amended: a job's retry budget is fixed at submission time; every
audio-processing job — whether from a single-job submission or a member of a
batch — has a budget of 3 retries (they all run `process_audio_async`), and
it is the batch-coordination task itself that has a budget of 2 retries. -/
theorem claim_C5_amended :
    processAudioAsyncTask.max_retries = 3
    ∧ processBatchAudioTask.max_retries = 2
    ∧ (∀ (file : UploadFile) (jobId : String) (resp : JobSubmissionResponse) (j : SpawnedJob),
        submitAudioJob file jobId = .ok (resp, j) → j.task.max_retries = 3)
    ∧ (∀ (batchId : String) (files : List FileData) (idGen : Nat → String),
        ∀ j ∈ (processBatchAudio batchId files idGen).2, j.task.max_retries = 3) := by
  refine ⟨rfl, rfl, ?_, ?_⟩
  · intro file jobId resp j h
    by_cases hc : pyStartsWith file.content_type "audio/"
    · simp [submitAudioJob, hc] at h
      rw [← h.2]
      rfl
    · simp [submitAudioJob, hc] at h
  · intro batchId files idGen j hj
    simp [processBatchAudio] at hj
    obtain ⟨f, _, rfl⟩ := hj
    rfl

/-- C5, witness: the amended statement applied to a concrete single
submission and a concrete one-file batch. -/
theorem claim_C5_witness :
    submitAudioJob goodWav "job-0"
      = .ok ({ job_id := "job-0", status := "PENDING",
               message := "Audio processing job submitted successfully for file: a.wav" },
             { task := processAudioAsyncTask, filename := "a.wav" })
    ∧ ({ task := processAudioAsyncTask, filename := "a.wav" } : SpawnedJob).task.max_retries = 3
    ∧ ({ task := processAudioAsyncTask, filename := "a.wav" } : SpawnedJob)
        ∈ (processBatchAudio "batch-1" [{ data := "RIFF", filename := "a.wav" }] exampleIdGen).2
    ∧ ({ task := processAudioAsyncTask, filename := "a.wav" } : SpawnedJob).task.max_retries = 3 :=
  ⟨rfl,
   claim_C5_amended.2.2.1 goodWav "job-0" _ _ rfl,
   by decide,
   claim_C5_amended.2.2.2 "batch-1" [{ data := "RIFF", filename := "a.wav" }] exampleIdGen _
     (by decide)⟩

/-- C9: during a single execution of `process_audio_async` the stage
percent-complete values written by `update_state` are exactly
`10, 20, 30, 70, 90`, a monotonically non-decreasing sequence — a concurrent
reader of that job's stage metadata never observes percent-complete
decrease. -/
theorem claim_C9 : ∀ (jobId filename : String) (tr : TranscribeResult) (opts : Options),
    ((processAudioResult jobId filename tr opts).1.map (fun u => u.progress)) = [10, 20, 30, 70, 90]
    ∧ List.Chain' (· ≤ ·)
        ((processAudioResult jobId filename tr opts).1.map (fun u => u.progress)) := by
  intro jobId filename tr opts
  refine ⟨rfl, ?_⟩
  have h : ((processAudioResult jobId filename tr opts).1.map (fun u => u.progress))
      = [10, 20, 30, 70, 90] := rfl
  rw [h]
  simp [List.chain'_cons]

/-- C10: `submit_batch_job` accepts an empty member list (only the over-50
cap is checked), and `get_batch_status` on the resulting empty successful
batch record performs the unguarded division `completed_jobs / total_jobs`,
raising `ZeroDivisionError` — surfaced by the endpoint's catch-all as HTTP
500 "division by zero" — instead of returning a batch view. -/
theorem claim_C10 :
    (∀ (batchId : String) (idGen : Nat → String),
        submitBatchJob [] batchId idGen
          = { response := .ok { batch_id := batchId, total_files := 0, job_ids := [],
                                status := "SUBMITTED" },
              batchTask := some processBatchAudioTask, createdJobs := [] })
    ∧ (∀ (store : Store) (batchId : String) (info : BatchResult),
        List.lookup batchId store = some { state := .SUCCESS, blob := some (.batchInfo info) } →
        info.job_ids = [] →
        getBatchStatus store batchId
          = .error { code := 500, detail := "Failed to get batch status: division by zero" }) := by
  constructor
  · intro batchId idGen
    rfl
  · intro store batchId info hl hempty
    simp [getBatchStatus, asyncResultState, asyncResultBlob, hl, hempty, isReadyState]

/-- C10, witness: the statement applied to a concrete empty batch. -/
theorem claim_C10_witness :
    List.lookup "batch-empty" emptyBatchStore
        = some { state := .SUCCESS,
                 blob := some (.batchInfo
                   { batch_id := "batch-empty", total_files := 0, job_ids := [],
                     status := "SUBMITTED" }) }
    ∧ ({ batch_id := "batch-empty", total_files := 0, job_ids := [],
         status := "SUBMITTED" } : BatchResult).job_ids = []
    ∧ getBatchStatus emptyBatchStore "batch-empty"
        = .error { code := 500, detail := "Failed to get batch status: division by zero" } :=
  ⟨rfl, rfl, claim_C10.2 emptyBatchStore "batch-empty" _ rfl rfl⟩

theorem specPauseCount_eq_pausesFrom (s : RawSegment) (rest : List RawSegment) :
    specPauseCount (s :: rest) = pausesFrom (some s.stop) rest := by
  induction rest generalizing s with
  | nil => rfl
  | cons t r ih => simp [specPauseCount, pausesFrom, ih t]

theorem segStep_pauseCount (st : LoopState) (s : RawSegment) :
    (segStep st s).pauseCount
      = st.pauseCount +
        (match st.segments.getLast? with
         | some prev => if s.start - prev.stop > 1 / 2 then 1 else 0
         | none => 0) := by
  rcases hlast : st.segments.getLast? with _ | prev
  · have hnil : st.segments = [] := List.getLast?_eq_none_iff.mp hlast
    simp [segStep, hnil]
  · have hne : st.segments ≠ [] := by
      intro hn
      rw [hn] at hlast
      exact Option.noConfusion hlast
    have hlen : 1 < (st.segments ++ [(⟨s.start, s.stop, pyStripString s.text, s.avg_logprob⟩ : Segment)]).length := by
      rw [List.length_append, List.length_singleton]
      have := List.length_pos.mpr hne
      omega
    simp only [segStep, hlast, hlen, if_pos]
    split <;> omega

theorem segStep_getLast (st : LoopState) (s : RawSegment) :
    (segStep st s).segments.getLast? = some ⟨s.start, s.stop, pyStripString s.text, s.avg_logprob⟩ := by
  simp [segStep]

theorem foldl_segStep_pauseCount (segs : List RawSegment) (st : LoopState) :
    (segs.foldl segStep st).pauseCount = st.pauseCount + pausesFrom (st.segments.getLast?.map (fun p => p.stop)) segs := by
  induction segs generalizing st with
  | nil =>
    rcases st.segments.getLast? with _ | p <;> simp [pausesFrom]
  | cons s rest ih =>
    rw [List.foldl_cons, ih (segStep st s), segStep_pauseCount, segStep_getLast]
    rcases hlast : st.segments.getLast? with _ | prev
    · simp [pausesFrom, Option.map]
    · simp only [Option.map, pausesFrom]
      omega

/-- C7: for every segment list, the pipeline's `pause_count` equals the
number of adjacent segment pairs whose inter-segment gap strictly exceeds
0.5 seconds, and the spec's two-segment fixture yields `pause_count = 1`. -/
theorem claim_C7 :
    (∀ segs : List RawSegment, (analyzeSegments segs).pauseCount = specPauseCount segs)
    ∧ (analyzeSegments pauseFixture).pauseCount = 1 := by
  have hmain : ∀ segs : List RawSegment,
      (analyzeSegments segs).pauseCount = specPauseCount segs := by
    intro segs
    rw [analyzeSegments, foldl_segStep_pauseCount]
    rcases segs with _ | ⟨s, rest⟩
    · rfl
    · rw [specPauseCount_eq_pausesFrom]
      simp [pausesFrom, Option.map]
  refine ⟨hmain, ?_⟩
  rw [hmain pauseFixture]
  norm_num [specPauseCount, pauseFixture]

/-! ### Reading metrics (C6) -/

theorem pyRound1_intCast (n : ℤ) : pyRound1 ((n : ℚ)) = n := by
  unfold pyRound1 pyRoundInt
  have h10 : ((n : ℚ)) * 10 = ((10 * n : ℤ) : ℚ) := by push_cast; ring
  rw [h10, Int.fract_intCast, round_intCast]
  norm_num

/-- C6: the reading metrics refine the spec formulas.  For positive word
count, duration and expected-wpm, `words_per_minute = words/duration × 60`
and the fluency score equals `100 × (0.7 × min(wpm/expected_wpm, 1) + 0.3 ×
max(0, 1 − pauses/words × 10))`; each division is guarded (zero duration
gives wpm 0; zero words and zero expected-wpm give fluency 0); and on the
spec's concrete instance (100 words in 60 s, expected wpm 100, no pauses)
the pipeline stores `words_per_minute = 100` and `fluency_score = 100.0`. -/
theorem claim_C6 :
    (∀ (w p : Nat) (d e : ℚ), 0 < w → 0 < d → 0 < e →
        readingMetrics w d p e
          = ((w : ℚ) / d * 60, specFluency ((w : ℚ) / d * 60) e p w))
    ∧ (∀ (w p : Nat) (e : ℚ), (readingMetrics w 0 p e).1 = 0)
    ∧ (∀ (p : Nat) (d : ℚ), readingMetrics 0 d p 0 = (0, 0))
    ∧ readingMetrics 100 60 0 100 = (100, 100)
    ∧ (processAudioResult "job-1" "a.wav" exampleTranscribe defaultOptions).2.words_per_minute = 100
    ∧ (processAudioResult "job-1" "a.wav" exampleTranscribe defaultOptions).2.fluency_score = 100 := by
  have hfix : readingMetrics 100 60 0 100 = (100, 100) := by
    norm_num [readingMetrics, min_def, max_def]
  have hword : pyWordCount hundredWordText = 100 := by
    set_option maxRecDepth 4000 in decide
  have hst : analyzeSegments exampleTranscribe.segments
      = { segments := [{ start := 0, stop := 60, text := pyStripString hundredWordText,
                         confidence := 0 }],
          totalWords := 100, totalDuration := 60, pauseCount := 0 } := by
    show segStep _ _ = _
    rw [segStep]
    norm_num [hword, max_def]
  refine ⟨?_, ?_, ?_, hfix, ?_, ?_⟩
  · intro w p d e hw hd he
    rw [readingMetrics, specFluency, if_pos hd, if_pos he, if_pos hw]
    exact Prod.ext rfl (by ring)
  · intro w p e
    simp [readingMetrics]
  · intro p d
    rw [readingMetrics]
    norm_num
  · show pyRound1 (readingMetrics (analyzeSegments exampleTranscribe.segments).totalWords
        (analyzeSegments exampleTranscribe.segments).totalDuration
        (analyzeSegments exampleTranscribe.segments).pauseCount
        defaultOptions.expected_wpm).1 = 100
    rw [hst]
    show pyRound1 (readingMetrics 100 60 0 100).1 = 100
    rw [hfix]
    have := pyRound1_intCast 100
    norm_num at this
    exact this
  · show pyRound1 (readingMetrics (analyzeSegments exampleTranscribe.segments).totalWords
        (analyzeSegments exampleTranscribe.segments).totalDuration
        (analyzeSegments exampleTranscribe.segments).pauseCount
        defaultOptions.expected_wpm).2 = 100
    rw [hst]
    show pyRound1 (readingMetrics 100 60 0 100).2 = 100
    rw [hfix]
    have := pyRound1_intCast 100
    norm_num at this
    exact this

/-- C6, witness: the guarded conjunct applied at 100 words, 60 seconds,
0 pauses, expected wpm 100. -/
theorem claim_C6_witness :
    0 < 100
    ∧ (0 : ℚ) < 60
    ∧ (0 : ℚ) < 100
    ∧ readingMetrics 100 60 0 100
        = (((100 : Nat) : ℚ) / 60 * 60, specFluency (((100 : Nat) : ℚ) / 60 * 60) 100 0 100) :=
  ⟨by decide, by norm_num, by norm_num,
   claim_C6.1 100 0 60 100 (by decide) (by norm_num) (by norm_num)⟩

/-! ### Text similarity (C8): bounds of the matcher -/

theorem foldl_induction {α β : Type} (P : β → Prop) (f : β → α → β) (l : List α) (init : β)
    (h0 : P init) (hstep : ∀ acc x, x ∈ l → P acc → P (f acc x)) : P (l.foldl f init) := by
  induction l generalizing init with
  | nil => exact h0
  | cons a l ih =>
    exact ih (f init a) (hstep init a (List.mem_cons_self a l) h0)
      (fun acc x hx hacc => hstep acc x (List.mem_cons_of_mem a hx) hacc)

theorem commonRunRev_le (p : Char → Bool) :
    ∀ (x y : List Char), commonRunRev p x y ≤ min x.length y.length := by
  intro x
  induction x with
  | nil => intro y; cases y <;> simp [commonRunRev]
  | cons c xs ih =>
    intro y
    cases y with
    | nil => simp [commonRunRev]
    | cons d ys =>
      rw [commonRunRev]
      split
      · have := ih ys
        simp only [List.length_cons]
        omega
      · simp

theorem runEndingAt_le (p : Char → Bool) (a b : List Char) (i j : Nat) :
    runEndingAt p a b i j ≤ min (i + 1) (j + 1) := by
  have h := commonRunRev_le p (a.take (i + 1)).reverse (b.take (j + 1)).reverse
  rw [runEndingAt]
  simp only [List.length_reverse, List.length_take] at h
  omega

theorem flmPhase1_bounds (p : Char → Bool) (a b : List Char) :
    (flmPhase1 p a b).1 + (flmPhase1 p a b).2.2 ≤ a.length
    ∧ (flmPhase1 p a b).2.1 + (flmPhase1 p a b).2.2 ≤ b.length := by
  rw [flmPhase1]
  apply foldl_induction
    (fun t : Nat × Nat × Nat => t.1 + t.2.2 ≤ a.length ∧ t.2.1 + t.2.2 ≤ b.length)
  · exact ⟨by simp, by simp⟩
  · intro best i hi hbest
    apply foldl_induction
      (fun t : Nat × Nat × Nat => t.1 + t.2.2 ≤ a.length ∧ t.2.1 + t.2.2 ≤ b.length)
    · exact hbest
    · intro best2 j hj hbest2
      dsimp only
      split
      · have hi' : i < a.length := List.mem_range.mp hi
        have hj' : j < b.length := List.mem_range.mp hj
        have hk := runEndingAt_le p a b i j
        constructor <;> dsimp only <;> omega
      · exact hbest2

theorem extendLeft_sums (p : Char → Bool) (a b : List Char) :
    ∀ (i j k : Nat),
      (extendLeft p a b i j k).1 + (extendLeft p a b i j k).2.2 = i + k
      ∧ (extendLeft p a b i j k).2.1 + (extendLeft p a b i j k).2.2 = j + k := by
  intro i
  induction i with
  | zero => intro j k; simp [extendLeft]
  | succ i ih =>
    intro j k
    cases j with
    | zero => simp [extendLeft]
    | succ j =>
      rw [extendLeft]
      split
      · have h := ih j (k + 1)
        omega
      · simp

theorem extendRight_bounds (p : Char → Bool) (a b : List Char) (i j : Nat) :
    ∀ (fuel k : Nat), i + k ≤ a.length → j + k ≤ b.length →
      i + extendRight p a b i j k fuel ≤ a.length
      ∧ j + extendRight p a b i j k fuel ≤ b.length := by
  intro fuel
  induction fuel with
  | zero => intro k h1 h2; rw [extendRight]; exact ⟨h1, h2⟩
  | succ fuel ih =>
    intro k h1 h2
    rw [extendRight]
    split
    · rename_i hcond
      exact ih (k + 1) (by omega) (by omega)
    · exact ⟨h1, h2⟩

theorem findLongestMatch_bounds (p : Char → Bool) (a b : List Char) :
    (findLongestMatch p a b).1 + (findLongestMatch p a b).2.2 ≤ a.length
    ∧ (findLongestMatch p a b).2.1 + (findLongestMatch p a b).2.2 ≤ b.length := by
  have h1 := flmPhase1_bounds p a b
  have h2 := extendLeft_sums (fun c => ! p c) a b (flmPhase1 p a b).1
    (flmPhase1 p a b).2.1 (flmPhase1 p a b).2.2
  rw [findLongestMatch]
  dsimp only
  generalize hm2 : extendLeft (fun c => ! p c) a b (flmPhase1 p a b).1
    (flmPhase1 p a b).2.1 (flmPhase1 p a b).2.2 = m2 at *
  have h2a : m2.1 + m2.2.2 ≤ a.length := by omega
  have h2b : m2.2.1 + m2.2.2 ≤ b.length := by omega
  have h3 := extendRight_bounds (fun c => ! p c) a b m2.1 m2.2.1 a.length m2.2.2 h2a h2b
  generalize hk3 : extendRight (fun c => ! p c) a b m2.1 m2.2.1 m2.2.2 a.length = k3 at *
  have h4 := extendLeft_sums p a b m2.1 m2.2.1 k3
  generalize hm4 : extendLeft p a b m2.1 m2.2.1 k3 = m4 at *
  have h4a : m4.1 + m4.2.2 ≤ a.length := by omega
  have h4b : m4.2.1 + m4.2.2 ≤ b.length := by omega
  have h5 := extendRight_bounds p a b m4.1 m4.2.1 a.length m4.2.2 h4a h4b
  exact h5

theorem matchingTotalAux_le (p : Char → Bool) :
    ∀ (fuel : Nat) (a b : List Char),
      matchingTotalAux p fuel a b ≤ min a.length b.length := by
  intro fuel
  induction fuel with
  | zero => intro a b; simp [matchingTotalAux]
  | succ fuel ih =>
    intro a b
    rw [matchingTotalAux]
    split
    · simp
    · rename_i hk
      have hb := findLongestMatch_bounds p a b
      have h1 := ih (a.take (findLongestMatch p a b).1) (b.take (findLongestMatch p a b).2.1)
      have h2 := ih (a.drop ((findLongestMatch p a b).1 + (findLongestMatch p a b).2.2))
        (b.drop ((findLongestMatch p a b).2.1 + (findLongestMatch p a b).2.2))
      simp only [List.length_take, List.length_drop] at h1 h2
      omega

theorem ratioValue_bounds (a b : List Char) : 0 ≤ ratioValue a b ∧ ratioValue a b ≤ 1 := by
  rw [ratioValue]
  split
  · norm_num
  · rename_i h
    have hM : matchingTotal (difflibBJunk b) a b ≤ min a.length b.length :=
      matchingTotalAux_le (difflibBJunk b) (a.length + b.length + 1) a b
    have h0 : 0 < a.length + b.length := Nat.pos_of_ne_zero h
    have hT : (0 : ℚ) < (a.length : ℚ) + (b.length : ℚ) := by exact_mod_cast h0
    constructor
    · apply div_nonneg _ (le_of_lt hT)
      positivity
    · rw [div_le_one hT]
      have h2M : 2 * matchingTotal (difflibBJunk b) a b ≤ a.length + b.length := by omega
      exact_mod_cast h2M

/-! ### Text similarity (C8): rounding bounds and input normalisation -/

theorem pyRoundInt_bounds (x : ℚ) (h0 : 0 ≤ x) (h1 : x ≤ 1000) :
    0 ≤ pyRoundInt x ∧ pyRoundInt x ≤ 1000 := by
  rw [pyRoundInt]
  split
  · rename_i hf
    have hfl0 : (0 : ℤ) ≤ ⌊x⌋ := Int.le_floor.mpr (by exact_mod_cast h0)
    have hx : x = ⌊x⌋ + 1 / 2 := by
      rw [Int.fract] at hf
      linarith
    have hub : ⌊x⌋ ≤ 999 := by
      by_contra hc
      push_neg at hc
      have hc' : (1000 : ℤ) ≤ ⌊x⌋ := by omega
      have : (1000 : ℚ) ≤ (⌊x⌋ : ℚ) := by exact_mod_cast hc'
      rw [hx] at h1
      linarith
    split <;> omega
  · rw [round_eq]
    constructor
    · exact Int.le_floor.mpr (by push_cast; linarith)
    · have h2 : ⌊x + 1 / 2⌋ < 1001 := Int.floor_lt.mpr (by push_cast; linarith)
      omega

theorem pyRound1_bounds (q : ℚ) (h0 : 0 ≤ q) (h1 : q ≤ 100) :
    0 ≤ pyRound1 q ∧ pyRound1 q ≤ 100 := by
  rw [pyRound1]
  have h := pyRoundInt_bounds (q * 10) (by linarith) (by linarith)
  constructor
  · apply div_nonneg _ (by norm_num : (0 : ℚ) ≤ 10)
    exact_mod_cast h.1
  · rw [div_le_iff₀ (by norm_num : (0 : ℚ) < 10)]
    have : (pyRoundInt (q * 10) : ℚ) ≤ 1000 := by exact_mod_cast h.2
    linarith

theorem toLower_of_isWhitespace (c : Char) (h : c.isWhitespace = true) : c.toLower = c := by
  simp [Char.isWhitespace] at h
  rcases h with ((rfl | rfl) | rfl) | rfl <;> decide

theorem dropWhile_append_all {p : Char → Bool} {l₁ l₂ : List Char} (h : ∀ c ∈ l₁, p c) :
    (l₁ ++ l₂).dropWhile p = l₂.dropWhile p := by
  induction l₁ with
  | nil => rfl
  | cons a l ih =>
    rw [List.cons_append, List.dropWhile_cons, if_pos (h a (List.mem_cons_self a l))]
    exact ih (fun c hc => h c (List.mem_cons_of_mem a hc))

theorem dropWhile_append_ne_nil {p : Char → Bool} {l₁ l₂ : List Char}
    (h : l₁.dropWhile p ≠ []) :
    (l₁ ++ l₂).dropWhile p = l₁.dropWhile p ++ l₂ := by
  induction l₁ with
  | nil => simp at h
  | cons a l ih =>
    by_cases hp : p a
    · rw [List.dropWhile_cons, if_pos hp] at h
      rw [List.cons_append, List.dropWhile_cons, if_pos hp, List.dropWhile_cons, if_pos hp]
      exact ih h
    · rw [List.cons_append, List.dropWhile_cons, if_neg hp, List.dropWhile_cons, if_neg hp,
        List.cons_append]

theorem lstripL_ws_append {w x : List Char} (h : ∀ c ∈ w, c.isWhitespace) :
    lstripL (w ++ x) = lstripL x :=
  dropWhile_append_all h

theorem rstripL_append_ws {x w : List Char} (h : ∀ c ∈ w, c.isWhitespace) :
    rstripL (x ++ w) = rstripL x := by
  rw [rstripL, rstripL, List.reverse_append,
    dropWhile_append_all (fun c hc => h c (List.mem_reverse.mp hc))]

theorem pyStrip_pad {x w₁ w₂ : List Char} (h1 : ∀ c ∈ w₁, c.isWhitespace)
    (h2 : ∀ c ∈ w₂, c.isWhitespace) :
    pyStrip (w₁ ++ x ++ w₂) = pyStrip x := by
  rw [pyStrip, pyStrip]
  have hl : lstripL (w₁ ++ x ++ w₂) = lstripL (x ++ w₂) := by
    rw [List.append_assoc]
    exact lstripL_ws_append h1
  rw [hl]
  by_cases hx : lstripL x = []
  · have hx' : ∀ c ∈ x, c.isWhitespace := List.dropWhile_eq_nil_iff.mp hx
    have hxw : lstripL (x ++ w₂) = [] := by
      rw [lstripL, dropWhile_append_all hx']
      exact List.dropWhile_eq_nil_iff.mpr h2
    rw [hxw, hx]
  · rw [show lstripL (x ++ w₂) = lstripL x ++ w₂ from dropWhile_append_ne_nil hx,
      rstripL_append_ws h2]

theorem normChars_pad (t : String) (w₁ w₂ : List Char) (h1 : ∀ c ∈ w₁, c.isWhitespace)
    (h2 : ∀ c ∈ w₂, c.isWhitespace) :
    normChars ⟨w₁ ++ t.data ++ w₂⟩ = normChars t := by
  show pyStrip ((w₁ ++ t.data ++ w₂).map Char.toLower) = pyStrip (t.data.map Char.toLower)
  rw [List.map_append, List.map_append]
  apply pyStrip_pad
  · intro c hc
    rw [List.mem_map] at hc
    obtain ⟨d, hd, rfl⟩ := hc
    rw [toLower_of_isWhitespace d (h1 d hd)]
    exact h1 d hd
  · intro c hc
    rw [List.mem_map] at hc
    obtain ⟨d, hd, rfl⟩ := hc
    rw [toLower_of_isWhitespace d (h2 d hd)]
    exact h2 d hd

/-- C8: `calculate_text_similarity` — the rounded, 0–100-scaled matcher
ratio of the lower-cased, trimmed inputs — always lies in the interval
`[0, 100]`, and is unchanged when either argument's letter case is altered
(same lower-casing) or when leading/trailing whitespace is added to either
argument. -/
theorem claim_C8 :
    (∀ t e : String,
        0 ≤ calculate_text_similarity t e ∧ calculate_text_similarity t e ≤ 100)
    ∧ (∀ t t' e : String, lowerData t' = lowerData t →
        calculate_text_similarity t' e = calculate_text_similarity t e)
    ∧ (∀ t e e' : String, lowerData e' = lowerData e →
        calculate_text_similarity t e' = calculate_text_similarity t e)
    ∧ (∀ (t e : String) (w₁ w₂ : List Char),
        (∀ c ∈ w₁, c.isWhitespace) → (∀ c ∈ w₂, c.isWhitespace) →
        calculate_text_similarity ⟨w₁ ++ t.data ++ w₂⟩ e = calculate_text_similarity t e)
    ∧ (∀ (t e : String) (w₁ w₂ : List Char),
        (∀ c ∈ w₁, c.isWhitespace) → (∀ c ∈ w₂, c.isWhitespace) →
        calculate_text_similarity t ⟨w₁ ++ e.data ++ w₂⟩ = calculate_text_similarity t e) := by
  refine ⟨?_, ?_, ?_, ?_, ?_⟩
  · intro t e
    rw [calculate_text_similarity]
    have hr := ratioValue_bounds (normChars t) (normChars e)
    exact pyRound1_bounds _ (by linarith [hr.1]) (by linarith [hr.2])
  · intro t t' e h
    rw [calculate_text_similarity, calculate_text_similarity,
      show normChars t' = normChars t by rw [normChars, normChars, h]]
  · intro t e e' h
    rw [calculate_text_similarity, calculate_text_similarity]
    rw [show normChars e' = normChars e by rw [normChars, normChars, h]]
  · intro t e w₁ w₂ h1 h2
    rw [calculate_text_similarity, calculate_text_similarity, normChars_pad t w₁ w₂ h1 h2]
  · intro t e w₁ w₂ h1 h2
    rw [calculate_text_similarity, calculate_text_similarity, normChars_pad e w₁ w₂ h1 h2]

/-- C8, witness: the invariance conjuncts applied at concrete strings — a
leading-space padding of the first argument, an upper-case variant of the
first argument, and trailing-space padding of the second argument. -/
theorem claim_C8_witness :
    (∀ c ∈ ([' '] : List Char), c.isWhitespace)
    ∧ (∀ c ∈ ([] : List Char), c.isWhitespace)
    ∧ calculate_text_similarity ⟨[' '] ++ "Hello".data ++ []⟩ "hello"
        = calculate_text_similarity "Hello" "hello"
    ∧ lowerData "HELLO" = lowerData "hello"
    ∧ calculate_text_similarity "HELLO" "abc" = calculate_text_similarity "hello" "abc"
    ∧ calculate_text_similarity "abc" ⟨[] ++ "abd".data ++ [' ', '\t']⟩
        = calculate_text_similarity "abc" "abd" :=
  ⟨by decide, by decide,
   claim_C8.2.2.2.1 "Hello" "hello" [' '] [] (by decide) (by decide),
   by decide,
   claim_C8.2.1 "hello" "HELLO" "abc" (by decide),
   claim_C8.2.2.2.2 "abc" "abd" [] [' ', '\t'] (by decide) (by decide)⟩

end WhisperServer
